import Mathlib

/-!
Shallow embedding of the llm-energy-consumption repository core:
`src/LLMAPIClient.py` (class `LLMAPIClient`, method `call_api`) and
`src/config.py` (class `Config`, its singleton `config`).

The HTTP layer (`requests.post` + `raise_for_status`) and `json.loads` are
external libraries; a call outcome of that layer is passed in explicitly as
an `HttpResult` value: either a `requests.exceptions.RequestException`
(network failure or non-2xx status), or a response body that is invalid
JSON, or a parsed Python value.
-/

/-- Python values produced by `json.loads` (and Python `None`).
JSON `null` parses to Python `None`, which is the same `PyVal.none` that
`dict.get` returns for a missing key. -/
inductive PyVal where
  | none : PyVal
  | bool : Bool → PyVal
  | int : Int → PyVal
  | str : String → PyVal
  | list : List PyVal → PyVal
  | dict : List (String × PyVal) → PyVal

/-- Python exceptions that the statements in `call_api` can raise.
`attributeError a` models `AttributeError` for a missing attribute named `a`;
`jsonDecodeError` models `json.JSONDecodeError` from `json.loads`. -/
inductive PyError where
  | attributeError : String → PyError
  | typeError : PyError
  | keyError : PyError
  | indexError : PyError
  | jsonDecodeError : PyError
deriving DecidableEq

/-- Python `x.get(key)`: on a dict, the value for `key` or `None` when the key
is absent; on any non-dict value (including `None`) an `AttributeError`,
since only dicts have a `get` attribute. -/
def PyVal.get (v : PyVal) (key : String) : Except PyError PyVal :=
  match v with
  | .dict entries => Except.ok ((entries.lookup key).getD PyVal.none)
  | _ => Except.error (PyError.attributeError "get")

/-- Python `x[i]` for a non-negative integer index `i`: on a list, the element
or `IndexError`; on a dict, `KeyError` (JSON object keys are strings); on
`None` or a scalar, `TypeError` (not subscriptable); on a string, the
one-character string or `IndexError`. -/
def PyVal.index (v : PyVal) (i : Nat) : Except PyError PyVal :=
  match v with
  | .list xs =>
      match xs.get? i with
      | some x => Except.ok x
      | Option.none => Except.error PyError.indexError
  | .dict _ => Except.error PyError.keyError
  | .str s =>
      match s.data.get? i with
      | some c => Except.ok (.str (String.mk [c]))
      | Option.none => Except.error PyError.indexError
  | _ => Except.error PyError.typeError

/-- Directory paths as component lists; `files` pairs a path with content.
A minimal filesystem model for `pathlib.Path.mkdir`. -/
structure FileSystem where
  dirs : List (List String)
  files : List (List String × String)
deriving DecidableEq

/-- The non-empty ancestor chain of a path: for `[a, b, c]` the list
`[[a], [a, b], [a, b, c]]`. -/
def pathAncestors (path : List String) : List (List String) :=
  (List.range path.length).map (fun i => path.take (i + 1))

/-- Python `path.mkdir(parents=True, exist_ok=True)`: create the directory
and every missing ancestor; an already-existing directory is not an error;
files and existing directories are untouched. -/
def FileSystem.mkdirParentsExistOk (fs : FileSystem) (path : List String) :
    FileSystem :=
  { dirs := fs.dirs ++ (pathAncestors path).filter (fun d => decide (d ∉ fs.dirs)),
    files := fs.files }

/-- The `Config` class of `src/config.py`. The float delay constants `1.0`
are represented exactly as rationals. Paths are component lists:
`Path("./data/")` normalizes to `data` and `Path("./config/config.ini")`
to `config/config.ini`.

`OPENAI_API_COMPATIBLE_SERVICES` is the one attribute `call_api` reads that
`Config.__init__` never assigns: `Option.none` represents the absent
attribute (reading it raises `AttributeError`). Modelled from the spec:
the spec describes the Configuration Provider as supplying "a set of
recognized OpenAI-API-compatible service identifiers"; `some services`
represents such a configured set, which is missing from the source. -/
structure Config where
  SAMPLE_FREQUENCY_NANO_SECONDS : Nat
  LLM_SERVICE_KEYWORD : String
  MONITORING_SERVICE_KEYWORD : String
  MONITORING_START_DELAY : ℚ
  MONITORING_END_DELAY : ℚ
  DATA_DIR_PATH : List String
  CONFIG_FILE_PATH : List String
  OPENAI_API_COMPATIBLE_SERVICES : Option (List String)

/-- `Config._init_paths`: create each directory in `[self.DATA_DIR_PATH]`
if it does not exist. -/
def Config.init_paths (c : Config) (fs : FileSystem) : FileSystem :=
  let directories := [c.DATA_DIR_PATH]
  directories.foldl FileSystem.mkdirParentsExistOk fs

/-- The attribute values set by `Config.__init__` in `src/config.py`;
`OPENAI_API_COMPATIBLE_SERVICES` is never assigned there. -/
def configAttrs : Config :=
  { SAMPLE_FREQUENCY_NANO_SECONDS := 10000000,
    LLM_SERVICE_KEYWORD := "ollamaserve",
    MONITORING_SERVICE_KEYWORD := "scaphandre",
    MONITORING_START_DELAY := 1,
    MONITORING_END_DELAY := 1,
    DATA_DIR_PATH := ["data"],
    CONFIG_FILE_PATH := ["config", "config.ini"],
    OPENAI_API_COMPATIBLE_SERVICES := Option.none }

/-- `Config.__init__`: set the attributes, then call `self._init_paths()`. -/
def Config.init (fs : FileSystem) : Config × FileSystem :=
  let c := configAttrs
  (c, c.init_paths fs)

/-- The module-level singleton `config = Config()` of `src/config.py`,
as imported by `LLMAPIClient.py` (its filesystem effect is in `Config.init`). -/
def config : Config := configAttrs

/-- Reading `config.OPENAI_API_COMPATIBLE_SERVICES`: `AttributeError` when
the attribute was never assigned. -/
def Config.getOpenAICompatibleServices (c : Config) :
    Except PyError (List String) :=
  match c.OPENAI_API_COMPATIBLE_SERVICES with
  | some s => Except.ok s
  | Option.none => Except.error (PyError.attributeError "OPENAI_API_COMPATIBLE_SERVICES")

/-- The `LLMAPIClient` attributes set by `__init__`. -/
structure LLMAPIClient where
  llm_service : String
  api_url : String
  model_name : String
  role : String
deriving DecidableEq

/-- The request body built at the top of `call_api`:
`{"model": self.model_name, "messages": [{"role": role, "content": prompt}],
"stream": stream}`. -/
structure RequestData where
  model : String
  messages_role : String
  messages_content : String
  stream : Bool
deriving DecidableEq

/-- The metadata dict built by the ollama and OpenAI-compatible branches of
`call_api`; field names are the dict keys of the source. Values read with
`.get` are `PyVal` (they are `PyVal.none` when the response key is absent). -/
structure MetadataDict where
  model_name : String
  created_at : PyVal
  total_duration : PyVal
  load_duration : PyVal
  prompt_token_length : PyVal
  prompt_duration : PyVal
  response_token_length : PyVal
  response_duration : PyVal
  prompt : String
  response : PyVal

/-- The body of the HTTP response: invalid JSON (so `json.loads` raises), or
the parsed Python value. -/
inductive JsonBody where
  | invalid : JsonBody
  | parsed : PyVal → JsonBody

/-- Outcome of `requests.post` + `response.raise_for_status()`: a
`requests.exceptions.RequestException` (network-level failure or non-success
status), or a response with a body text. -/
inductive HttpResult where
  | requestException : HttpResult
  | ok : JsonBody → HttpResult

/-- What a call to `call_api` does, observably: return `None` (the request
failure path), return the metadata dict, return the still-bound request
payload dict (the fall-through `return data`), or raise an exception. -/
inductive CallOutcome where
  | returnedNone : CallOutcome
  | metadata : MetadataDict → CallOutcome
  | requestPayload : RequestData → CallOutcome
  | raised : PyError → CallOutcome

/-- The ollama branch of `call_api`: the dict literal at lines 75-86,
with each value expression evaluated in source order; any raising
sub-expression aborts the dict construction with that exception. -/
def ollamaExtract (self : LLMAPIClient) (prompt : String) (rj : PyVal) :
    Except PyError MetadataDict :=
  Except.bind (rj.get "created_at") fun created_at =>
  Except.bind (rj.get "total_duration") fun total_duration =>
  Except.bind (rj.get "load_duration") fun load_duration =>
  Except.bind (rj.get "prompt_eval_count") fun prompt_token_length =>
  Except.bind (rj.get "prompt_eval_duration") fun prompt_duration =>
  Except.bind (rj.get "eval_count") fun response_token_length =>
  Except.bind (rj.get "eval_duration") fun response_duration =>
  Except.bind (rj.get "message") fun message =>
  Except.bind (message.get "content") fun response =>
  Except.ok
    { model_name := self.model_name,
      created_at := created_at,
      total_duration := total_duration,
      load_duration := load_duration,
      prompt_token_length := prompt_token_length,
      prompt_duration := prompt_duration,
      response_token_length := response_token_length,
      response_duration := response_duration,
      prompt := prompt,
      response := response }

/-- The OpenAI-compatible branch of `call_api`: the dict literal at lines
100-111, values evaluated in source order; `usage` is read once per token
field as in the source, the four duration fields are the literal `None`. -/
def openaiExtract (self : LLMAPIClient) (prompt : String) (rj : PyVal) :
    Except PyError MetadataDict :=
  Except.bind (rj.get "created") fun created_at =>
  Except.bind (rj.get "usage") fun usage1 =>
  Except.bind (usage1.get "prompt_tokens") fun prompt_token_length =>
  Except.bind (rj.get "usage") fun usage2 =>
  Except.bind (usage2.get "completion_tokens") fun response_token_length =>
  Except.bind (rj.get "choices") fun choices =>
  Except.bind (choices.index 0) fun choice0 =>
  Except.bind (choice0.get "message") fun message =>
  Except.bind (message.get "content") fun response =>
  Except.ok
    { model_name := self.model_name,
      created_at := created_at,
      total_duration := PyVal.none,
      load_duration := PyVal.none,
      prompt_token_length := prompt_token_length,
      prompt_duration := PyVal.none,
      response_token_length := response_token_length,
      response_duration := PyVal.none,
      prompt := prompt,
      response := response }

/-- `LLMAPIClient.call_api(self, prompt, role=None, stream=False)`.
`cfg` is the module-level `config` imported by `LLMAPIClient.py`; `http`
is the outcome of the external HTTP POST of the request body. The returned
`LLMAPIClient` is the post-call state of `self` (no statement in the method
assigns to `self`, so it is returned unchanged in every branch). -/
def LLMAPIClient.call_api (self : LLMAPIClient) (cfg : Config)
    (prompt : String) (role? : Option String) (stream : Bool)
    (http : HttpResult) : LLMAPIClient × CallOutcome :=
  let role := role?.getD self.role
  let data : RequestData :=
    { model := self.model_name, messages_role := role,
      messages_content := prompt, stream := stream }
  match http with
  | .requestException => (self, .returnedNone)
  | .ok .invalid => (self, .raised .jsonDecodeError)
  | .ok (.parsed response_json) =>
      if self.llm_service = "ollama" then
        match ollamaExtract self prompt response_json with
        | .ok m => (self, .metadata m)
        | .error e => (self, .raised e)
      else
        match cfg.getOpenAICompatibleServices with
        | .error e => (self, .raised e)
        | .ok services =>
            if self.llm_service ∈ services then
              match openaiExtract self prompt response_json with
              | .ok m => (self, .metadata m)
              | .error e => (self, .raised e)
            else
              (self, .requestPayload data)

/-- A fully valid ollama-shaped response body (spec section 6): all expected
top-level keys present, with `message` a dict holding `content`. -/
def ollamaBody (created_at : String)
    (total_duration load_duration prompt_eval_count prompt_eval_duration
      eval_count eval_duration : Int) (content : String) : PyVal :=
  PyVal.dict
    [("created_at", .str created_at),
     ("total_duration", .int total_duration),
     ("load_duration", .int load_duration),
     ("prompt_eval_count", .int prompt_eval_count),
     ("prompt_eval_duration", .int prompt_eval_duration),
     ("eval_count", .int eval_count),
     ("eval_duration", .int eval_duration),
     ("message", .dict [("content", .str content)])]

/-- A fully valid OpenAI-compatible-shaped response body (spec section 6). -/
def openaiBody (created prompt_tokens completion_tokens : Int)
    (content : String) : PyVal :=
  PyVal.dict
    [("created", .int created),
     ("usage", .dict [("prompt_tokens", .int prompt_tokens),
                      ("completion_tokens", .int completion_tokens)]),
     ("choices", .list [.dict [("message", .dict [("content", .str content)])]])]

/-- The actual `config` with the spec-described compatible-service set
supplied, for the branches the missing attribute makes unreachable. -/
def configWith (services : List String) : Config :=
  { configAttrs with OPENAI_API_COMPATIBLE_SERVICES := some services }

/-- A concrete client for counterexamples and witnesses. -/
def demoClient : LLMAPIClient :=
  { llm_service := "ollama", api_url := "http://localhost:8080/api/chat",
    model_name := "llama3", role := "user" }

/-- A concrete client whose service identifier is not the ollama keyword. -/
def mistralClient : LLMAPIClient :=
  { llm_service := "mistral", api_url := "http://localhost:8080/v1",
    model_name := "mistral-7b", role := "user" }

/-- A well-formed ollama response carrying every expected key except
`message`. -/
def noMessageEntries : List (String × PyVal) :=
  [("created_at", .str "2024-01-01T00:00:00Z"),
   ("total_duration", .int 100),
   ("load_duration", .int 10),
   ("prompt_eval_count", .int 3),
   ("prompt_eval_duration", .int 5),
   ("eval_count", .int 2),
   ("eval_duration", .int 7)]

/-- The metadata dict of the end-to-end example in spec section 8. -/
def specExampleMetadata : MetadataDict :=
  { model_name := "llama3",
    created_at := .str "2024-01-01T00:00:00Z",
    total_duration := .int 100,
    load_duration := .int 10,
    prompt_token_length := .int 3,
    prompt_duration := .int 5,
    response_token_length := .int 2,
    response_duration := .int 7,
    prompt := "Say hi",
    response := .str "Hi!" }

/-- A sequence of `call_api` calls on one client, threading the client state
through each call; each list element is the `(prompt, role, stream, http)`
input of one call. -/
def runCalls (cfg : Config) (self : LLMAPIClient)
    (calls : List (String × Option String × Bool × HttpResult)) : LLMAPIClient :=
  calls.foldl (fun c args =>
    (c.call_api cfg args.1 args.2.1 args.2.2.1 args.2.2.2).1) self

/-- C1 counterexample: on a network-level failure (`RequestException`),
`call_api` returns `None` — the claimed typed `RequestError` propagation does
not happen; the caller receives a null result. -/
theorem c1_requestError_counterexample :
    demoClient.call_api config "Say hi" Option.none false
      HttpResult.requestException = (demoClient, CallOutcome.returnedNone) := rfl

/-- C1 amended: on any network-level failure or non-success HTTP status,
`call_api` catches the `RequestException`, prints it, and returns `None`;
no exception propagates and no metadata dict is returned. -/
theorem call_api_requestException_returns_none (self : LLMAPIClient)
    (cfg : Config) (prompt : String) (role? : Option String) (stream : Bool) :
    self.call_api cfg prompt role? stream HttpResult.requestException =
      (self, CallOutcome.returnedNone) := rfl

/-- C6 counterexample: on a response body that is not valid JSON,
`json.loads` raises an unhandled `JSONDecodeError` — a crash, not the
claimed typed `ResponseParseError`. -/
theorem c6_parseError_counterexample :
    demoClient.call_api config "Say hi" Option.none false
      (HttpResult.ok JsonBody.invalid) =
      (demoClient, CallOutcome.raised PyError.jsonDecodeError) := rfl

/-- C6 amended: for every HTTP response whose body is not valid JSON,
`call_api` raises an unhandled `json.JSONDecodeError` (a crash); it never
returns a result on this path, and no `ResponseParseError` type exists in
the code. -/
theorem call_api_invalid_json_raises (self : LLMAPIClient) (cfg : Config)
    (prompt : String) (role? : Option String) (stream : Bool) :
    self.call_api cfg prompt role? stream (HttpResult.ok JsonBody.invalid) =
      (self, CallOutcome.raised PyError.jsonDecodeError) := rfl

/-- Inversion for `Except.bind` with an `ok` result: the first step succeeded
and the continuation produced the result. -/
theorem exceptBind_ok_inv {ε α β : Type} {x : Except ε α} {f : α → Except ε β}
    {b : β} (h : Except.bind x f = Except.ok b) :
    ∃ a, x = Except.ok a ∧ f a = Except.ok b := by
  cases x with
  | ok a => exact ⟨a, rfl, h⟩
  | error e => exact absurd h (by simp [Except.bind])

/-- Whenever the ollama branch builds its dict, the `prompt` entry is the
input prompt. -/
theorem ollamaExtract_prompt_eq (self : LLMAPIClient) (prompt : String)
    (rj : PyVal) (m : MetadataDict)
    (h : ollamaExtract self prompt rj = Except.ok m) : m.prompt = prompt := by
  unfold ollamaExtract at h
  obtain ⟨a1, h1, h⟩ := exceptBind_ok_inv h
  obtain ⟨a2, h2, h⟩ := exceptBind_ok_inv h
  obtain ⟨a3, h3, h⟩ := exceptBind_ok_inv h
  obtain ⟨a4, h4, h⟩ := exceptBind_ok_inv h
  obtain ⟨a5, h5, h⟩ := exceptBind_ok_inv h
  obtain ⟨a6, h6, h⟩ := exceptBind_ok_inv h
  obtain ⟨a7, h7, h⟩ := exceptBind_ok_inv h
  obtain ⟨a8, h8, h⟩ := exceptBind_ok_inv h
  obtain ⟨a9, h9, h⟩ := exceptBind_ok_inv h
  cases h
  rfl

/-- Whenever the OpenAI-compatible branch builds its dict, the `prompt` entry
is the input prompt. -/
theorem openaiExtract_prompt_eq (self : LLMAPIClient) (prompt : String)
    (rj : PyVal) (m : MetadataDict)
    (h : openaiExtract self prompt rj = Except.ok m) : m.prompt = prompt := by
  unfold openaiExtract at h
  obtain ⟨a1, h1, h⟩ := exceptBind_ok_inv h
  obtain ⟨a2, h2, h⟩ := exceptBind_ok_inv h
  obtain ⟨a3, h3, h⟩ := exceptBind_ok_inv h
  obtain ⟨a4, h4, h⟩ := exceptBind_ok_inv h
  obtain ⟨a5, h5, h⟩ := exceptBind_ok_inv h
  obtain ⟨a6, h6, h⟩ := exceptBind_ok_inv h
  obtain ⟨a7, h7, h⟩ := exceptBind_ok_inv h
  obtain ⟨a8, h8, h⟩ := exceptBind_ok_inv h
  obtain ⟨a9, h9, h⟩ := exceptBind_ok_inv h
  cases h
  rfl

/-- Every path in a directory's ancestor chain exists after
`mkdir(parents=True, exist_ok=True)`. -/
theorem mkdir_mem_of_ancestor (fs : FileSystem) (path d : List String)
    (hd : d ∈ pathAncestors path) :
    d ∈ (fs.mkdirParentsExistOk path).dirs := by
  by_cases h : d ∈ fs.dirs
  · exact List.mem_append_left _ h
  · exact List.mem_append_right _ (List.mem_filter.mpr ⟨hd, by simpa using h⟩)

/-- `mkdir(parents=True, exist_ok=True)` is idempotent. -/
theorem mkdir_idem (fs : FileSystem) (path : List String) :
    (fs.mkdirParentsExistOk path).mkdirParentsExistOk path =
      fs.mkdirParentsExistOk path := by
  have hfil : (pathAncestors path).filter
      (fun d => decide (d ∉ (fs.mkdirParentsExistOk path).dirs)) = [] := by
    apply List.filter_eq_nil_iff.mpr
    intro d hd
    simp [mkdir_mem_of_ancestor fs path d hd]
  show ({ dirs := _, files := _ } : FileSystem) = _
  rw [hfil]
  simp

/-- No statement in `call_api` assigns to `self`: the post-call client state
equals the pre-call state on every path through the method. -/
theorem call_api_fst (self : LLMAPIClient) (cfg : Config) (prompt : String)
    (role? : Option String) (stream : Bool) (http : HttpResult) :
    (self.call_api cfg prompt role? stream http).1 = self := by
  unfold LLMAPIClient.call_api
  cases http with
  | requestException => rfl
  | ok body =>
    cases body with
    | invalid => rfl
    | parsed rj =>
      by_cases hol : self.llm_service = "ollama"
      · rcases hE : ollamaExtract self prompt rj with e | m <;> simp [hol, hE]
      · rcases hS : cfg.getOpenAICompatibleServices with e | services
        · simp [hol, hS]
        · by_cases hm : self.llm_service ∈ services
          · rcases hE : openaiExtract self prompt rj with e | m <;>
              simp [hol, hS, hm, hE]
          · simp [hol, hS, hm]

/-- C2: for every service identifier other than the literal "ollama", once the
HTTP request and JSON parsing succeed, `call_api` reads
`config.OPENAI_API_COMPATIBLE_SERVICES` — an attribute `Config.__init__`
never assigns — and so raises `AttributeError`; in particular neither the
OpenAI-compatible extraction nor the fall-through `return data` is ever
reached without a crash. -/
theorem call_api_non_ollama_raises_attributeError (self : LLMAPIClient)
    (prompt : String) (role? : Option String) (stream : Bool) (rj : PyVal)
    (h : self.llm_service ≠ "ollama") :
    self.call_api config prompt role? stream
      (HttpResult.ok (JsonBody.parsed rj)) =
      (self, CallOutcome.raised
        (PyError.attributeError "OPENAI_API_COMPATIBLE_SERVICES")) := by
  simp [LLMAPIClient.call_api, h, config, configAttrs,
    Config.getOpenAICompatibleServices]

/-- C2 witness: a concrete non-ollama call crashes with `AttributeError`. -/
theorem call_api_non_ollama_raises_attributeError_witness :
    mistralClient.llm_service ≠ "ollama"
    ∧ mistralClient.call_api config "Say hi" Option.none false
        (HttpResult.ok (JsonBody.parsed (PyVal.dict []))) =
      (mistralClient, CallOutcome.raised
        (PyError.attributeError "OPENAI_API_COMPATIBLE_SERVICES")) :=
  ⟨by decide,
    call_api_non_ollama_raises_attributeError mistralClient "Say hi"
      Option.none false (PyVal.dict []) (by decide)⟩

/-- C3: for every fully valid ollama-shaped response body and every client
whose service identifier is the ollama keyword, `call_api` returns the
metadata dict with `response` equal to `message.content` and the six
metadata fields taken from the corresponding response fields; no duration
field is `None`. -/
theorem call_api_ollama_valid_mapping (cfg : Config)
    (url model role prompt : String) (role? : Option String) (stream : Bool)
    (created_at : String)
    (total_duration load_duration prompt_eval_count prompt_eval_duration
      eval_count eval_duration : Int) (content : String) :
    LLMAPIClient.call_api
      { llm_service := "ollama", api_url := url, model_name := model,
        role := role }
      cfg prompt role? stream
      (HttpResult.ok (JsonBody.parsed (ollamaBody created_at total_duration
        load_duration prompt_eval_count prompt_eval_duration eval_count
        eval_duration content))) =
      ({ llm_service := "ollama", api_url := url, model_name := model,
         role := role },
        CallOutcome.metadata
          { model_name := model,
            created_at := .str created_at,
            total_duration := .int total_duration,
            load_duration := .int load_duration,
            prompt_token_length := .int prompt_eval_count,
            prompt_duration := .int prompt_eval_duration,
            response_token_length := .int eval_count,
            response_duration := .int eval_duration,
            prompt := prompt,
            response := .str content })
    ∧ PyVal.int total_duration ≠ PyVal.none
    ∧ PyVal.int load_duration ≠ PyVal.none
    ∧ PyVal.int prompt_eval_duration ≠ PyVal.none
    ∧ PyVal.int eval_duration ≠ PyVal.none :=
  ⟨rfl, by simp, by simp, by simp, by simp⟩

/-- C4: with the spec-described compatible-service set supplied to the
configuration, for every fully valid OpenAI-compatible-shaped response body
and every service identifier in that set (and not the ollama keyword, which
the earlier branch captures), `call_api` returns the metadata dict with
`response` equal to `choices[0].message.content`, the token counts from
`usage`, and all four duration fields `None`. -/
theorem call_api_openai_valid_mapping (services : List String)
    (svc url model role prompt : String) (role? : Option String)
    (stream : Bool) (created prompt_tokens completion_tokens : Int)
    (content : String) (hmem : svc ∈ services) (hne : svc ≠ "ollama") :
    LLMAPIClient.call_api
      { llm_service := svc, api_url := url, model_name := model, role := role }
      (configWith services) prompt role? stream
      (HttpResult.ok (JsonBody.parsed (openaiBody created prompt_tokens
        completion_tokens content))) =
      ({ llm_service := svc, api_url := url, model_name := model,
         role := role },
        CallOutcome.metadata
          { model_name := model,
            created_at := .int created,
            total_duration := PyVal.none,
            load_duration := PyVal.none,
            prompt_token_length := .int prompt_tokens,
            prompt_duration := PyVal.none,
            response_token_length := .int completion_tokens,
            response_duration := PyVal.none,
            prompt := prompt,
            response := .str content }) := by
  simp [LLMAPIClient.call_api, hne, hmem, configWith, configAttrs,
    Config.getOpenAICompatibleServices]
  rfl

/-- C4 witness: a concrete call through the OpenAI-compatible branch. -/
theorem call_api_openai_valid_mapping_witness :
    ("mistral" : String) ∈ ["mistral"]
    ∧ ("mistral" : String) ≠ "ollama"
    ∧ LLMAPIClient.call_api
        { llm_service := "mistral", api_url := "http://localhost:8080/v1",
          model_name := "mistral-7b", role := "user" }
        (configWith ["mistral"]) "Say hi" Option.none false
        (HttpResult.ok (JsonBody.parsed (openaiBody 1704067200 3 2 "Hi!"))) =
      ({ llm_service := "mistral", api_url := "http://localhost:8080/v1",
         model_name := "mistral-7b", role := "user" },
        CallOutcome.metadata
          { model_name := "mistral-7b",
            created_at := .int 1704067200,
            total_duration := PyVal.none,
            load_duration := PyVal.none,
            prompt_token_length := .int 3,
            prompt_duration := PyVal.none,
            response_token_length := .int 2,
            response_duration := PyVal.none,
            prompt := "Say hi",
            response := .str "Hi!" }) :=
  ⟨by decide, by decide,
    call_api_openai_valid_mapping ["mistral"] "mistral"
      "http://localhost:8080/v1" "mistral-7b" "user" "Say hi" Option.none
      false 1704067200 3 2 "Hi!" (by decide) (by decide)⟩

/-- C5 counterexample: with the compatible-service set supplied as
`["mistral"]`, a call whose service identifier "gemma" matches neither
branch returns the request payload dict — not any `UnsupportedServiceError`,
which does not exist in the code. -/
theorem c5_unsupportedService_counterexample :
    LLMAPIClient.call_api
      { llm_service := "gemma", api_url := "http://localhost:8080/v1",
        model_name := "gemma-2b", role := "user" }
      (configWith ["mistral"]) "Say hi" Option.none false
      (HttpResult.ok (JsonBody.parsed (openaiBody 1 2 3 "x"))) =
      ({ llm_service := "gemma", api_url := "http://localhost:8080/v1",
         model_name := "gemma-2b", role := "user" },
        CallOutcome.requestPayload
          { model := "gemma-2b", messages_role := "user",
            messages_content := "Say hi", stream := false }) := rfl

/-- C5 amended: with the compatible-service set supplied, a service
identifier matching neither branch makes `call_api` fall through both
conditionals and return the local variable `data`, still bound to the
request payload dict — no error of any kind is produced (with the actual
repo `config`, the membership test itself raises `AttributeError` first,
per the C2 theorem). -/
theorem call_api_unsupported_returns_request_payload (services : List String)
    (svc url model role prompt : String) (role? : Option String)
    (stream : Bool) (rj : PyVal) (hne : svc ≠ "ollama")
    (hnm : svc ∉ services) :
    LLMAPIClient.call_api
      { llm_service := svc, api_url := url, model_name := model, role := role }
      (configWith services) prompt role? stream
      (HttpResult.ok (JsonBody.parsed rj)) =
      ({ llm_service := svc, api_url := url, model_name := model,
         role := role },
        CallOutcome.requestPayload
          { model := model, messages_role := role?.getD role,
            messages_content := prompt, stream := stream }) := by
  simp [LLMAPIClient.call_api, hne, hnm, configWith, configAttrs,
    Config.getOpenAICompatibleServices]

/-- C5 amended witness: a concrete fall-through call. -/
theorem call_api_unsupported_returns_request_payload_witness :
    ("gpt4all" : String) ≠ "ollama"
    ∧ ("gpt4all" : String) ∉ ["mistral"]
    ∧ LLMAPIClient.call_api
        { llm_service := "gpt4all", api_url := "http://localhost:8080/v1",
          model_name := "gpt4all-j", role := "user" }
        (configWith ["mistral"]) "Say hi" Option.none false
        (HttpResult.ok (JsonBody.parsed (PyVal.dict []))) =
      ({ llm_service := "gpt4all", api_url := "http://localhost:8080/v1",
         model_name := "gpt4all-j", role := "user" },
        CallOutcome.requestPayload
          { model := "gpt4all-j", messages_role := "user",
            messages_content := "Say hi", stream := false }) :=
  ⟨by decide, by decide,
    call_api_unsupported_returns_request_payload ["mistral"] "gpt4all"
      "http://localhost:8080/v1" "gpt4all-j" "user" "Say hi" Option.none
      false (PyVal.dict []) (by decide) (by decide)⟩

/-- C7 counterexample: a well-formed ollama response missing `message`
entirely makes `call_api` raise an unhandled `AttributeError`
(`None` has no attribute `get`) — not any `ResponseShapeError`, which does
not exist in the code. -/
theorem c7_missing_message_counterexample :
    demoClient.call_api config "Say hi" Option.none false
      (HttpResult.ok (JsonBody.parsed (PyVal.dict noMessageEntries))) =
      (demoClient, CallOutcome.raised (PyError.attributeError "get")) := rfl

/-- C7 amended: for every well-formed JSON object taken through the ollama
branch whose `message` key is absent, `response_json.get("message")` yields
`None` and the chained `.get("content")` raises an unhandled
`AttributeError` — a crash, not a typed error. -/
theorem call_api_ollama_missing_message_raises (cfg : Config)
    (entries : List (String × PyVal)) (url model role prompt : String)
    (role? : Option String) (stream : Bool)
    (h : entries.lookup "message" = Option.none) :
    LLMAPIClient.call_api
      { llm_service := "ollama", api_url := url, model_name := model,
        role := role }
      cfg prompt role? stream
      (HttpResult.ok (JsonBody.parsed (PyVal.dict entries))) =
      ({ llm_service := "ollama", api_url := url, model_name := model,
         role := role },
        CallOutcome.raised (PyError.attributeError "get")) := by
  simp [LLMAPIClient.call_api, ollamaExtract, PyVal.get, Except.bind, h]

/-- C7 amended witness: the concrete no-`message` response. -/
theorem call_api_ollama_missing_message_raises_witness :
    noMessageEntries.lookup "message" = Option.none
    ∧ LLMAPIClient.call_api
        { llm_service := "ollama", api_url := "http://localhost:8080/api/chat",
          model_name := "llama3", role := "user" }
        config "Say hi" Option.none false
        (HttpResult.ok (JsonBody.parsed (PyVal.dict noMessageEntries))) =
      ({ llm_service := "ollama", api_url := "http://localhost:8080/api/chat",
         model_name := "llama3", role := "user" },
        CallOutcome.raised (PyError.attributeError "get")) :=
  ⟨rfl,
    call_api_ollama_missing_message_raises config noMessageEntries
      "http://localhost:8080/api/chat" "llama3" "user" "Say hi" Option.none
      false rfl⟩

/-- C8: whenever a call returns a metadata dict — through either backend
branch — its `prompt` entry is the exact input prompt string, unmodified. -/
theorem call_api_prompt_roundtrip (self : LLMAPIClient) (cfg : Config)
    (prompt : String) (role? : Option String) (stream : Bool)
    (http : HttpResult) (m : MetadataDict)
    (h : (self.call_api cfg prompt role? stream http).2 =
      CallOutcome.metadata m) :
    m.prompt = prompt := by
  unfold LLMAPIClient.call_api at h
  cases http with
  | requestException => exact absurd h (by simp)
  | ok body =>
    cases body with
    | invalid => exact absurd h (by simp)
    | parsed rj =>
      by_cases hol : self.llm_service = "ollama"
      · rcases hE : ollamaExtract self prompt rj with e | m' <;>
          simp [hol, hE] at h
        exact h ▸ ollamaExtract_prompt_eq self prompt rj m' hE
      · rcases hS : cfg.getOpenAICompatibleServices with e | services
        · simp [hol, hS] at h
        · by_cases hm : self.llm_service ∈ services
          · rcases hE : openaiExtract self prompt rj with e | m' <;>
              simp [hol, hS, hm, hE] at h
            exact h ▸ openaiExtract_prompt_eq self prompt rj m' hE
          · simp [hol, hS, hm] at h

/-- C8 witness: the end-to-end example of spec section 8 echoes its prompt. -/
theorem call_api_prompt_roundtrip_witness :
    (demoClient.call_api config "Say hi" Option.none false
      (HttpResult.ok (JsonBody.parsed
        (ollamaBody "2024-01-01T00:00:00Z" 100 10 3 5 2 7 "Hi!")))).2 =
      CallOutcome.metadata specExampleMetadata
    ∧ specExampleMetadata.prompt = "Say hi" :=
  ⟨rfl,
    call_api_prompt_roundtrip demoClient config "Say hi" Option.none false
      (HttpResult.ok (JsonBody.parsed
        (ollamaBody "2024-01-01T00:00:00Z" 100 10 3 5 2 7 "Hi!")))
      specExampleMetadata rfl⟩

/-- C9: constructing the configuration creates the data directory if it is
missing, is idempotent (re-initializing on the resulting filesystem changes
nothing), and is non-destructive (every pre-existing directory survives and
the files are untouched). -/
theorem config_init_data_dir_spec (fs : FileSystem) :
    ((Config.init fs).1.DATA_DIR_PATH ∈ (Config.init fs).2.dirs)
    ∧ (Config.init (Config.init fs).2).2 = (Config.init fs).2
    ∧ (∀ d ∈ fs.dirs, d ∈ (Config.init fs).2.dirs)
    ∧ (Config.init fs).2.files = fs.files := by
  refine ⟨?_, ?_, ?_, ?_⟩
  · exact mkdir_mem_of_ancestor fs ["data"] ["data"] (by simp [pathAncestors])
  · exact mkdir_idem fs ["data"]
  · intro d hd
    exact List.mem_append_left _ hd
  · rfl

/-- C9 witness: a pre-existing directory survives initialization. -/
theorem config_init_data_dir_spec_witness :
    ["persisted"] ∈ (Config.init { dirs := [["persisted"]], files := [] }).2.dirs :=
  (config_init_data_dir_spec { dirs := [["persisted"]], files := [] }).2.2.1
    ["persisted"] (by decide)

/-- C10: a sequence of `call_api` calls, whatever their inputs and HTTP
outcomes, leaves the client record — service identifier, endpoint URL,
model name, default role — exactly as constructed: the client holds no
mutable state that any call modifies. -/
theorem runCalls_leaves_client_unchanged (cfg : Config)
    (self : LLMAPIClient)
    (calls : List (String × Option String × Bool × HttpResult)) :
    runCalls cfg self calls = self := by
  induction calls with
  | nil => rfl
  | cons a rest ih =>
    rw [runCalls, List.foldl_cons, call_api_fst]
    exact ih
